import Mathlib

/-!
Verification of `cleanupads.py`, a one-shot cleanup script for the AWS
Application Discovery Service.  The script is a linear pipeline:
parse args → list configurations (paginated, filtered) → optional
interactive confirmation → batch delete agents → batch delete
configurations, with a single top-level exception handler.

We embed the script shallowly: all remote responses and the interactive
input are gathered in a `World` record, and each Python function becomes
a pure Lean function from the world (and its arguments) to a result
together with the list of observable events (remote calls, the prompt,
warning logs) it produces.  `main_run` composes them exactly as
`main()` does.
-/

namespace CleanupADS

/-- Run parameters, as produced by `parse_args` (`argparse`): three optional
string filters and two boolean flags. -/
structure Args where
  app_name : Option String
  tag_key : Option String
  tag_value : Option String
  force : Bool
  unattended : Bool
deriving Repr, DecidableEq

/-- A filter clause as built in `ADS.list_configurations`: a dict with
keys name, values and condition, the condition being the string EQ. -/
structure Filter where
  name : String
  values : List String
  condition : String
deriving Repr, DecidableEq

/-- The `filter_params` list of `(param, filter_name)` pairs, in source order
(lines 49-53 of `cleanupads.py`). -/
def filter_params (args : Args) : List (Option String × String) :=
  [(args.app_name, "server.application.name"),
   (args.tag_key, "server.tag.key"),
   (args.tag_value, "server.tag.value")]

/-- The filter-building loop of `ADS.list_configurations` (lines 55-61):
append one `EQ` clause for each parameter that is not `None`. -/
def buildFilters (args : Args) : List Filter :=
  (filter_params args).foldl
    (fun filters p =>
      match p.1 with
      | some param => filters ++ [{ name := p.2, values := [param], condition := "EQ" }]
      | none => filters)
    []

/-- A configuration record: a Python dict from field names to strings.
Only `server.agentId` and `server.configurationId` are consumed locally. -/
abbrev Config := List (String × String)

/-- One per-agent error entry of the `batch_delete_agents` response. -/
structure AgentError where
  agentId : String
  errorMessage : String
deriving Repr, DecidableEq

/-- One entry of the batch-delete request: a dict pairing an agentId with
the force flag of the run. -/
structure DeleteAgentReq where
  agentId : String
  force : Bool
deriving Repr, DecidableEq

/-- Observable events of a run: remote calls, the confirmation prompt and
the empty-result warning log. -/
inductive Event where
  | listCall (filters : List Filter)
  | logWarning (msg : String)
  | prompt
  | deleteAgentsCall (reqs : List DeleteAgentReq)
  | deleteConfigsCall (ids : List String)
deriving Repr, DecidableEq

def Event.isListCall : Event → Bool
  | .listCall _ => true
  | _ => false

def Event.isPrompt : Event → Bool
  | .prompt => true
  | _ => false

def Event.isDeleteAgentsCall : Event → Bool
  | .deleteAgentsCall _ => true
  | _ => false

def Event.isDeleteConfigsCall : Event → Bool
  | .deleteConfigsCall _ => true
  | _ => false

/-- Everything the outside world supplies to one run of the script:
whether `len(sys.argv) == 1`, the parsed arguments, the pages the
paginator yields, the line typed at the prompt, transport errors of the
three remote calls, and the per-agent errors of the batch-delete
response. -/
structure World where
  noFlags : Bool
  args : Args
  listTransportError : Option String
  pages : List (List Config)
  userInput : String
  agentsTransportError : Option String
  agentErrors : List AgentError
  configsTransportError : Option String

/-- Python str.lower, modelled charwise on the character list (the script
only ever compares the result against the ASCII token cleanup). -/
def strLower (s : String) : String := String.mk (s.data.map Char.toLower)

/-- The four ways `ADS.list_configurations` can come back to `main`:
return `None` (the empty-result sentinel), return the accumulated list,
terminate the process via `sys.exit(0)` (user declined), or raise a
wrapped exception. -/
inductive ListResult where
  | sentinel
  | found (configurations : List Config)
  | exit0
  | failed (msg : String)
deriving Repr, DecidableEq

/-- `ADS.list_configurations` (lines 41-80): paginate accumulating all
pages; on zero records warn and return the `None` sentinel; otherwise,
unless unattended, prompt and `sys.exit(0)` when the input lowercased is
not `cleanup`; any exception is re-raised wrapped with
`Error listing configurations: `.  (`sys.exit` raises `SystemExit`,
which `except Exception` does not catch.) -/
def list_configurations (w : World) : List Event × ListResult :=
  let filters := buildFilters w.args
  match w.listTransportError with
  | some e => ([.listCall filters], .failed ("Error listing configurations: " ++ e))
  | none =>
    let configurations := w.pages.flatten
    if configurations = [] then
      ([.listCall filters, .logWarning "No configurations found, exiting..."], .sentinel)
    else if w.args.unattended then
      ([.listCall filters], .found configurations)
    else if strLower w.userInput = "cleanup" then
      ([.listCall filters, .prompt], .found configurations)
    else
      ([.listCall filters, .prompt], .exit0)

/-- The newline character. -/
def nlChar : Char := Char.ofNat 10

/-- Helper for `msgLines`: split a character list at newlines, carrying the
(reversed) characters of the current line. -/
def splitLinesAux : List Char → List Char → List String
  | [], acc => [String.mk acc.reverse]
  | c :: rest, acc =>
    if c = nlChar then String.mk acc.reverse :: splitLinesAux rest []
    else splitLinesAux rest (c :: acc)

/-- The lines of a message, in the sense of Python `str.split` on a newline:
`"a\nb"` has lines `["a", "b"]` and `""` has lines `[""]`. -/
def msgLines (s : String) : List String := splitLinesAux s.data []

/-- Python str.join with a newline separator: the elements separated by
newlines. -/
def joinLines : List String → String
  | [] => ""
  | [s] => s
  | s :: rest => s ++ "\n" ++ joinLines rest

/-- Formatting of one per-agent error line (line 94): the word Agent, the
agentId, a colon and the errorMessage of the response entry. -/
def fmtAgentError (e : AgentError) : String :=
  "Agent " ++ e.agentId ++ ": " ++ e.errorMessage

/-- The aggregate message raised on per-agent errors (line 95): the
formatted per-agent lines joined by newlines. -/
def aggregateMessage (errors : List AgentError) : String :=
  joinLines (errors.map fmtAgentError)

/-- `ADS.delete_agents` (lines 82-98): one `batch_delete_agents` call with
`{agentId, force}` pairs; if the response carries errors, raise the
aggregate message; every exception (transport or the aggregate) is
caught by the function itself and re-raised wrapped with
`Error deleting agents: `. -/
def delete_agents (force : Bool) (transportError : Option String)
    (errors : List AgentError) (agent_ids : List String) :
    List Event × Except String Unit :=
  let agents_to_delete := agent_ids.map (fun agent_id => DeleteAgentReq.mk agent_id force)
  match transportError with
  | some e =>
    ([.deleteAgentsCall agents_to_delete], .error ("Error deleting agents: " ++ e))
  | none =>
    if errors = [] then
      ([.deleteAgentsCall agents_to_delete], .ok ())
    else
      ([.deleteAgentsCall agents_to_delete],
       .error ("Error deleting agents: " ++ aggregateMessage errors))

/-- `ADS.delete_configurations` (lines 100-109): one
`start_batch_delete_configuration_task` call; any exception is wrapped
with `Error deleting configurations: `. -/
def delete_configurations (transportError : Option String)
    (configuration_ids : List String) : List Event × Except String Unit :=
  match transportError with
  | some e =>
    ([.deleteConfigsCall configuration_ids],
     .error ("Error deleting configurations: " ++ e))
  | none => ([.deleteConfigsCall configuration_ids], .ok ())

/-- The identifier extraction of `main` (lines 123-124): a list
comprehension `[server[key] for server in configurations]`, which raises
`KeyError` at the first record lacking the key. -/
def extractIds (key : String) : List Config → Option (List String)
  | [] => some []
  | server :: rest =>
    match server.lookup key with
    | none => none
    | some v =>
      match extractIds key rest with
      | none => none
      | some vs => some (v :: vs)

/-- Python `str(KeyError(key))` is the key wrapped in single quotes. -/
def keyErrorMsg (key : String) : String :=
  String.singleton (Char.ofNat 39) ++ key ++ String.singleton (Char.ofNat 39)

/-- The outcome of one process run: the events it produced, its exit
status (0 when `main` returns normally), whether the no-flags usage hint
was printed, and the message passed to `logging.error` by the top-level
handler, if any. -/
structure RunResult where
  events : List Event
  exitCode : Nat
  usagePrinted : Bool
  loggedError : Option String
deriving Repr, DecidableEq

/-- The deletion phase of `main` (lines 123-126) together with the
top-level `except` (lines 128-130): extract agent ids, then
configuration ids, call `delete_agents`, then `delete_configurations`;
any exception is logged as `An error occurred: {e}` and the process
exits 1. -/
def mainDeletePhase (w : World) (evs : List Event) (configurations : List Config) :
    RunResult :=
  match extractIds "server.agentId" configurations with
  | none =>
    { events := evs, exitCode := 1, usagePrinted := false,
      loggedError := some ("An error occurred: " ++ keyErrorMsg "server.agentId") }
  | some agent_ids =>
    match extractIds "server.configurationId" configurations with
    | none =>
      { events := evs, exitCode := 1, usagePrinted := false,
        loggedError := some ("An error occurred: " ++ keyErrorMsg "server.configurationId") }
    | some configuration_ids =>
      match delete_agents w.args.force w.agentsTransportError w.agentErrors agent_ids with
      | (evs2, .error msg) =>
        { events := evs ++ evs2, exitCode := 1, usagePrinted := false,
          loggedError := some ("An error occurred: " ++ msg) }
      | (evs2, .ok _) =>
        match delete_configurations w.configsTransportError configuration_ids with
        | (evs3, .error msg) =>
          { events := evs ++ evs2 ++ evs3, exitCode := 1, usagePrinted := false,
            loggedError := some ("An error occurred: " ++ msg) }
        | (evs3, .ok _) =>
          { events := evs ++ evs2 ++ evs3, exitCode := 0, usagePrinted := false,
            loggedError := none }

/-- Dispatch of `main` on the value returned by `list_configurations`
(lines 121-130): `None` sentinel and user decline end the run (exit 0
for the former because `main` just returns, and for the latter because
`SystemExit(0)` passes through `except Exception`); a wrapped listing
exception is caught, logged and turned into exit 1. -/
def runAfterList (w : World) (evs : List Event) : ListResult → RunResult
  | .failed msg =>
    { events := evs, exitCode := 1, usagePrinted := false,
      loggedError := some ("An error occurred: " ++ msg) }
  | .exit0 =>
    { events := evs, exitCode := 0, usagePrinted := false, loggedError := none }
  | .sentinel =>
    { events := evs, exitCode := 0, usagePrinted := false, loggedError := none }
  | .found configurations => mainDeletePhase w evs configurations

/-- `main` (lines 111-130): with `len(sys.argv) == 1`, print the usage
hint and `sys.exit(1)` before any remote contact; otherwise run the
pipeline. -/
def main_run (w : World) : RunResult :=
  if w.noFlags then
    { events := [], exitCode := 1, usagePrinted := true, loggedError := none }
  else
    let r := list_configurations w
    runAfterList w r.1 r.2

/-! ## Concrete worlds for evaluating the theorems -/

/-- Two discovered records, unattended, all remote calls succeeding. -/
def worldC1 : World :=
  { noFlags := false,
    args := { app_name := some "web01", tag_key := none, tag_value := none,
              force := false, unattended := true },
    listTransportError := none,
    pages := [[[("server.agentId", "a1"), ("server.configurationId", "c1")]],
              [[("server.agentId", "a2"), ("server.configurationId", "c2")]]],
    userInput := "",
    agentsTransportError := none, agentErrors := [],
    configsTransportError := none }

/-- One discovered record, attended, the user declining the prompt. -/
def worldC2 : World :=
  { noFlags := false,
    args := { app_name := none, tag_key := some "env", tag_value := some "dev",
              force := false, unattended := false },
    listTransportError := none,
    pages := [[[("server.agentId", "a1"), ("server.configurationId", "c1")]]],
    userInput := "no",
    agentsTransportError := none, agentErrors := [],
    configsTransportError := none }

/-- One discovered record, unattended, one per-agent deletion error. -/
def worldC3 : World :=
  { noFlags := false,
    args := { app_name := none, tag_key := none, tag_value := none,
              force := true, unattended := true },
    listTransportError := none,
    pages := [[[("server.agentId", "a1"), ("server.configurationId", "c1")]]],
    userInput := "",
    agentsTransportError := none,
    agentErrors := [{ agentId := "a1", errorMessage := "boom" }],
    configsTransportError := none }

/-- No discovered records. -/
def worldC5 : World :=
  { noFlags := false,
    args := { app_name := some "gone", tag_key := none, tag_value := none,
              force := false, unattended := false },
    listTransportError := none, pages := [[]], userInput := "",
    agentsTransportError := none, agentErrors := [],
    configsTransportError := none }

/-- An invocation with zero command-line flags. -/
def worldC6 : World :=
  { noFlags := true,
    args := { app_name := none, tag_key := none, tag_value := none,
              force := false, unattended := false },
    listTransportError := none, pages := [], userInput := "",
    agentsTransportError := none, agentErrors := [],
    configsTransportError := none }

/-- A transport error while listing. -/
def worldC8a : World :=
  { noFlags := false,
    args := { app_name := none, tag_key := none, tag_value := none,
              force := false, unattended := true },
    listTransportError := some "socket closed", pages := [], userInput := "",
    agentsTransportError := none, agentErrors := [],
    configsTransportError := none }

/-- A transport error while deleting agents. -/
def worldC8b : World :=
  { noFlags := false,
    args := { app_name := none, tag_key := none, tag_value := none,
              force := false, unattended := true },
    listTransportError := none,
    pages := [[[("server.agentId", "a1"), ("server.configurationId", "c1")]]],
    userInput := "",
    agentsTransportError := some "throttled", agentErrors := [],
    configsTransportError := none }

/-- A transport error while deleting configurations. -/
def worldC8c : World :=
  { noFlags := false,
    args := { app_name := none, tag_key := none, tag_value := none,
              force := false, unattended := true },
    listTransportError := none,
    pages := [[[("server.agentId", "a1"), ("server.configurationId", "c1")]]],
    userInput := "",
    agentsTransportError := none, agentErrors := [],
    configsTransportError := some "denied" }

/-- One discovered record, unattended. -/
def worldC9 : World :=
  { noFlags := false,
    args := { app_name := none, tag_key := none, tag_value := some "prod",
              force := true, unattended := true },
    listTransportError := none,
    pages := [[[("server.agentId", "a9"), ("server.configurationId", "c9")]]],
    userInput := "ignored",
    agentsTransportError := none, agentErrors := [],
    configsTransportError := none }

/-- A discovered record lacking the agent identifier key. -/
def worldC10 : World :=
  { noFlags := false,
    args := { app_name := none, tag_key := none, tag_value := none,
              force := false, unattended := true },
    listTransportError := none,
    pages := [[[("server.configurationId", "c1")]]],
    userInput := "",
    agentsTransportError := none, agentErrors := [],
    configsTransportError := none }

/-! ## Helper lemmas -/

/-- The events of `list_configurations` are one of three concrete lists,
always starting with the single paginate call. -/
theorem list_events_cases (w : World) :
    (list_configurations w).1 = [.listCall (buildFilters w.args)] ∨
    (list_configurations w).1 =
      [.listCall (buildFilters w.args),
       .logWarning "No configurations found, exiting..."] ∨
    (list_configurations w).1 = [.listCall (buildFilters w.args), .prompt] := by
  unfold list_configurations
  cases h : w.listTransportError
  · by_cases he : w.pages.flatten = []
    · simp [he]
    · by_cases hu : w.args.unattended = true
      · simp [he, hu]
      · by_cases hin : strLower w.userInput = "cleanup" <;> simp [he, hu, hin]
  · simp

/-- With a listing transport error the listing step raises the wrapped
message after the single paginate call. -/
theorem list_failed_of (w : World) (e : String) (h : w.listTransportError = some e) :
    list_configurations w =
      ([.listCall (buildFilters w.args)],
       .failed ("Error listing configurations: " ++ e)) := by
  simp [list_configurations, h]

/-- With no records accumulated, the listing step logs the warning and
returns the sentinel. -/
theorem list_sentinel_of (w : World) (h2 : w.listTransportError = none)
    (h3 : w.pages.flatten = []) :
    list_configurations w =
      ([.listCall (buildFilters w.args),
        .logWarning "No configurations found, exiting..."], .sentinel) := by
  simp [list_configurations, h2, h3]

/-- With records found and the gate passed (unattended, or the input
lowercased equal to cleanup) the listing step returns the accumulated
records; the prompt occurs exactly when not unattended. -/
theorem list_found_of (w : World) (h2 : w.listTransportError = none)
    (h3 : w.pages.flatten ≠ [])
    (hg : w.args.unattended = true ∨ strLower w.userInput = "cleanup") :
    list_configurations w =
      (Event.listCall (buildFilters w.args) ::
        (if w.args.unattended then [] else [Event.prompt]),
       ListResult.found w.pages.flatten) := by
  rcases hg with hu | hin
  · simp [list_configurations, h2, h3, hu]
  · cases hu : w.args.unattended <;>
      simp [list_configurations, h2, h3, hu, hin]

/-- With records found, not unattended, and a declining input, the listing
step prompts and terminates the process via exit 0. -/
theorem list_exit0_of (w : World) (h2 : w.listTransportError = none)
    (h3 : w.pages.flatten ≠ []) (h4 : w.args.unattended = false)
    (h5 : strLower w.userInput ≠ "cleanup") :
    list_configurations w =
      ([.listCall (buildFilters w.args), .prompt], .exit0) := by
  simp [list_configurations, h2, h3, h4, h5]

/-- `main_run` without the no-flags early exit. -/
theorem main_run_eq (w : World) (h : w.noFlags = false) :
    main_run w = runAfterList w (list_configurations w).1 (list_configurations w).2 := by
  simp [main_run, h]

/-- The events of one `delete_agents` call: exactly one batch-delete
request pairing every identifier, in order, with the force flag. -/
theorem delete_agents_events (force : Bool) (te : Option String)
    (errors : List AgentError) (agent_ids : List String) :
    (delete_agents force te errors agent_ids).1 =
      [Event.deleteAgentsCall
        (agent_ids.map fun a => { agentId := a, force := force })] := by
  cases te <;> simp [delete_agents] <;> split <;> rfl

/-- The events of one `delete_configurations` call. -/
theorem delete_configurations_events (te : Option String) (ids : List String) :
    (delete_configurations te ids).1 = [Event.deleteConfigsCall ids] := by
  cases te <;> rfl

/-- The deletion phase only appends delete-call events to the listing
events. -/
theorem mainDeletePhase_events_shape (w : World) (evs : List Event)
    (configs : List Config) :
    ∃ rest, (mainDeletePhase w evs configs).events = evs ++ rest ∧
      ∀ e ∈ rest, Event.isDeleteAgentsCall e = true ∨
        Event.isDeleteConfigsCall e = true := by
  cases ha : extractIds "server.agentId" configs with
  | none =>
    refine ⟨[], ?_, by simp⟩
    simp [mainDeletePhase, ha]
  | some as =>
    cases hc : extractIds "server.configurationId" configs with
    | none =>
      refine ⟨[], ?_, by simp⟩
      simp [mainDeletePhase, ha, hc]
    | some cs =>
      have h1 := delete_agents_events w.args.force w.agentsTransportError w.agentErrors as
      cases hd : delete_agents w.args.force w.agentsTransportError w.agentErrors as with
      | mk evs2 res2 =>
        have he2 : evs2 = [Event.deleteAgentsCall
            (as.map fun a => { agentId := a, force := w.args.force })] := by
          rw [← h1, hd]
        cases res2 with
        | error msg =>
          refine ⟨evs2, ?_, ?_⟩
          · simp [mainDeletePhase, ha, hc, hd]
          · intro e he
            rw [he2] at he
            simp at he
            simp [he, Event.isDeleteAgentsCall]
        | ok u =>
          have h2 := delete_configurations_events w.configsTransportError cs
          cases hd3 : delete_configurations w.configsTransportError cs with
          | mk evs3 res3 =>
            have he3 : evs3 = [Event.deleteConfigsCall cs] := by
              rw [← h2, hd3]
            have hmem : ∀ e ∈ evs2 ++ evs3, Event.isDeleteAgentsCall e = true ∨
                Event.isDeleteConfigsCall e = true := by
              intro e he
              rw [he2, he3] at he
              rcases List.mem_append.mp he with h | h <;> simp at h <;>
                simp [h, Event.isDeleteAgentsCall, Event.isDeleteConfigsCall]
            cases res3 with
            | error msg =>
              exact ⟨evs2 ++ evs3, by simp [mainDeletePhase, ha, hc, hd, hd3], hmem⟩
            | ok u2 =>
              exact ⟨evs2 ++ evs3, by simp [mainDeletePhase, ha, hc, hd, hd3], hmem⟩

/-- When unattended, the listing step never prompts. -/
theorem list_events_unattended (w : World) (h : w.args.unattended = true) :
    Event.prompt ∉ (list_configurations w).1 := by
  unfold list_configurations
  cases hte : w.listTransportError
  · by_cases he : w.pages.flatten = []
    · simp [he]
    · simp [he, h]
  · simp

/-- Any run without the no-flags early exit produces the listing events
followed only by delete-call events. -/
theorem main_run_events_shape (w : World) (h : w.noFlags = false) :
    ∃ rest, (main_run w).events = (list_configurations w).1 ++ rest ∧
      ∀ e ∈ rest, Event.isDeleteAgentsCall e = true ∨
        Event.isDeleteConfigsCall e = true := by
  rw [main_run_eq w h]
  cases hl : list_configurations w with
  | mk evs lr =>
    cases lr with
    | sentinel => exact ⟨[], by simp [runAfterList], by simp⟩
    | exit0 => exact ⟨[], by simp [runAfterList], by simp⟩
    | failed msg => exact ⟨[], by simp [runAfterList], by simp⟩
    | found configs => simpa [runAfterList] using mainDeletePhase_events_shape w evs configs

/-! ## Identifier extraction lemmas -/

/-- Extraction preserves length. -/
theorem extractIds_length (key : String) (l : List Config) (r : List String)
    (h : extractIds key l = some r) : r.length = l.length := by
  induction l generalizing r with
  | nil =>
    simp only [extractIds, Option.some.injEq] at h
    subst h; rfl
  | cons c l ih =>
    simp only [extractIds] at h
    cases hc : c.lookup key <;> rw [hc] at h
    · exact absurd h (by simp)
    · cases hr : extractIds key l <;> rw [hr] at h
      · exact absurd h (by simp)
      · simp only [Option.some.injEq] at h
        subst h
        simp [ih _ hr]

/-- Extraction is positional: the i-th extracted identifier is the value of
the key in the i-th record. -/
theorem extractIds_getElem (key : String) (l : List Config) (r : List String)
    (h : extractIds key l = some r) (i : Nat) :
    r[i]? = (l[i]?.bind fun c => c.lookup key) := by
  induction l generalizing r i with
  | nil =>
    simp only [extractIds, Option.some.injEq] at h
    subst h; simp
  | cons c l ih =>
    simp only [extractIds] at h
    cases hc : c.lookup key <;> rw [hc] at h
    · exact absurd h (by simp)
    · cases hr : extractIds key l <;> rw [hr] at h
      · exact absurd h (by simp)
      · simp only [Option.some.injEq] at h
        subst h
        cases i with
        | zero => simp [hc]
        | succ i => simpa using ih _ hr i

/-- Extraction fails when some record lacks the key. -/
theorem extractIds_eq_none (key : String) (l : List Config)
    (h : ∃ c ∈ l, c.lookup key = none) : extractIds key l = none := by
  induction l with
  | nil => simp at h
  | cons c l ih =>
    rcases h with ⟨d, hd, hnone⟩
    rcases List.mem_cons.mp hd with rfl | hd2
    · simp [extractIds, hnone]
    · simp only [extractIds]
      cases hc : c.lookup key
      · rfl
      · simp [ih ⟨d, hd2, hnone⟩]

/-- When extraction succeeds, every record has the key. -/
theorem extractIds_mem (key : String) (l : List Config) (r : List String)
    (h : extractIds key l = some r) (c : Config) (hc : c ∈ l) :
    c.lookup key ≠ none := by
  induction l generalizing r with
  | nil => simp at hc
  | cons d l ih =>
    simp only [extractIds] at h
    cases hd : d.lookup key <;> rw [hd] at h
    · exact absurd h (by simp)
    · rcases List.mem_cons.mp hc with rfl | hc2
      · simp [hd]
      · cases hr : extractIds key l <;> rw [hr] at h
        · exact absurd h (by simp)
        · exact ih _ hr hc2

/-! ## Line-splitting lemmas -/

/-- Splitting a newline-free tail yields the single accumulated line. -/
theorem splitLinesAux_no_newline (cs : List Char) (acc : List Char)
    (h : nlChar ∉ cs) :
    splitLinesAux cs acc = [String.mk (acc.reverse ++ cs)] := by
  induction cs generalizing acc with
  | nil => simp [splitLinesAux]
  | cons c rest ih =>
    simp only [List.mem_cons, not_or] at h
    simp only [splitLinesAux]
    rw [if_neg (fun hc => h.1 hc.symm), ih _ h.2]
    simp

/-- Splitting at the first newline separates the first line. -/
theorem splitLinesAux_newline_split (cs rest : List Char) (acc : List Char)
    (h : nlChar ∉ cs) :
    splitLinesAux (cs ++ nlChar :: rest) acc =
      String.mk (acc.reverse ++ cs) :: splitLinesAux rest [] := by
  induction cs generalizing acc with
  | nil =>
    simp only [List.nil_append, splitLinesAux, if_pos rfl]
    simp
  | cons c cs2 ih =>
    simp only [List.mem_cons, not_or] at h
    simp only [List.cons_append, splitLinesAux, List.append_eq]
    rw [if_neg (fun hc => h.1 hc.symm), ih _ h.2]
    simp

theorem data_newline : ("\n" : String).data = [nlChar] := by decide

/-- The lines of a prefixed join of newline-free entries: the first entry
carries the prefix, the remaining entries are the remaining lines. -/
theorem msgLines_prefix_join (p x : String) (xs : List String)
    (hp : nlChar ∉ p.data) (hx : nlChar ∉ x.data)
    (hxs : ∀ s ∈ xs, nlChar ∉ s.data) :
    msgLines (p ++ joinLines (x :: xs)) = (p ++ x) :: xs := by
  induction xs generalizing p x with
  | nil =>
    show splitLinesAux (p ++ x).data [] = [p ++ x]
    rw [splitLinesAux_no_newline _ _ (by simp [String.data_append, hp, hx])]
    simp [String.ext_iff, String.data_append]
  | cons y ys ih =>
    have hn : ("\n" : String).data = [nlChar] := data_newline
    have harg : (p ++ (x ++ "\n" ++ joinLines (y :: ys))).data =
        (p.data ++ x.data) ++ (nlChar :: (joinLines (y :: ys)).data) := by
      rw [String.data_append, String.data_append, String.data_append, hn]
      simp
    show splitLinesAux (p ++ (x ++ "\n" ++ joinLines (y :: ys))).data [] =
      (p ++ x) :: y :: ys
    rw [harg, splitLinesAux_newline_split _ _ _ (by simp [hp, hx])]
    have h2 : String.mk (([] : List Char).reverse ++ (p.data ++ x.data)) = p ++ x := by
      apply String.ext
      simp [String.data_append]
    have h3 : splitLinesAux (joinLines (y :: ys)).data [] = y :: ys := by
      have h4 := ih "" y (by simp) (hxs y (by simp))
        (fun s hs => hxs s (List.mem_cons_of_mem _ hs))
      have h5 : ("" : String) ++ joinLines (y :: ys) = joinLines (y :: ys) := rfl
      have h6 : ("" : String) ++ y = y := rfl
      rw [h5, h6] at h4
      exact h4
    rw [h2, h3]

/-! ## The claims -/

/-- C4: for every combination of the three optional run parameters, the
filter-clause list contains exactly one EQ clause with a single-element
values list per non-null parameter, in the fixed order application name,
tag key, tag value. -/
theorem claim_C4_filter_clauses (args : Args) :
    buildFilters args =
      (args.app_name.toList.map fun x =>
        { name := "server.application.name", values := [x], condition := "EQ" }) ++
      (args.tag_key.toList.map fun x =>
        { name := "server.tag.key", values := [x], condition := "EQ" }) ++
      (args.tag_value.toList.map fun x =>
        { name := "server.tag.value", values := [x], condition := "EQ" }) := by
  rcases args with ⟨a, k, v, f, u⟩
  cases a <;> cases k <;> cases v <;> rfl

/-- C6: invoking the program with zero command-line flags prints the usage
hint and exits with status 1 with no remote call (the event trace is
empty). -/
theorem claim_C6_no_flags_usage_exit (w : World) (h : w.noFlags = true) :
    main_run w =
      { events := [], exitCode := 1, usagePrinted := true, loggedError := none } := by
  simp [main_run, h]

/-- C6 witness at a concrete invocation with no flags. -/
theorem claim_C6_no_flags_usage_exit_witness :
    main_run
      { noFlags := true,
        args := { app_name := none, tag_key := none, tag_value := none,
                  force := false, unattended := false },
        listTransportError := none, pages := [], userInput := "",
        agentsTransportError := none, agentErrors := [],
        configsTransportError := none } =
      { events := [], exitCode := 1, usagePrinted := true, loggedError := none } :=
  claim_C6_no_flags_usage_exit _ rfl

/-- C7: every `delete_agents` call, for any identifier sequence including
the empty one, issues exactly one batch-delete remote call whose request
pairs each identifier, in order, with the force flag of the run. -/
theorem claim_C7_delete_agents_one_batch (force : Bool) (te : Option String)
    (errors : List AgentError) (agent_ids : List String) :
    (delete_agents force te errors agent_ids).1 =
      [Event.deleteAgentsCall
        (agent_ids.map fun a => { agentId := a, force := force })] :=
  delete_agents_events force te errors agent_ids

/-- C5: with zero accumulated records, the listing step logs the warning
and returns the None sentinel, which is distinct from every found
sequence, the empty one included; no prompt and no delete call occur and
the run ends as success (exit code 0, nothing logged as an error). -/
theorem claim_C5_empty_sentinel (w : World)
    (h1 : w.noFlags = false) (h2 : w.listTransportError = none)
    (h3 : w.pages.flatten = []) :
    (list_configurations w).2 = ListResult.sentinel ∧
    (∀ cs : List Config, ListResult.sentinel ≠ ListResult.found cs) ∧
    main_run w =
      { events := [.listCall (buildFilters w.args),
                   .logWarning "No configurations found, exiting..."],
        exitCode := 0, usagePrinted := false, loggedError := none } := by
  have hl := list_sentinel_of w h2 h3
  refine ⟨by rw [hl], fun cs => by simp, ?_⟩
  rw [main_run_eq w h1, hl]
  rfl

/-- C5 witness: a run whose single page is empty. -/
theorem claim_C5_empty_sentinel_witness :
    (list_configurations worldC5).2 = ListResult.sentinel ∧
    ListResult.sentinel ≠ ListResult.found [] ∧
    main_run worldC5 =
      { events := [.listCall [{ name := "server.application.name",
                                values := ["gone"], condition := "EQ" }],
                   .logWarning "No configurations found, exiting..."],
        exitCode := 0, usagePrinted := false, loggedError := none } := by
  have h := claim_C5_empty_sentinel worldC5 rfl rfl rfl
  exact ⟨h.1, h.2.1 [], h.2.2⟩

/-- C2: when attended and records were found, the run blocks on the
prompt; the listing step hands the records on exactly when the input
lowercased equals cleanup; on any other input the process exits with
status 0 having made no deletion call. -/
theorem claim_C2_confirmation_gate (w : World)
    (h1 : w.noFlags = false) (h2 : w.listTransportError = none)
    (h3 : w.pages.flatten ≠ []) (h4 : w.args.unattended = false) :
    Event.prompt ∈ (main_run w).events ∧
    ((list_configurations w).2 = ListResult.found w.pages.flatten ↔
      strLower w.userInput = "cleanup") ∧
    (strLower w.userInput ≠ "cleanup" →
      main_run w =
        { events := [.listCall (buildFilters w.args), .prompt],
          exitCode := 0, usagePrinted := false, loggedError := none }) := by
  by_cases hin : strLower w.userInput = "cleanup"
  · have hl := list_found_of w h2 h3 (Or.inr hin)
    have hm : main_run w = mainDeletePhase w
        (Event.listCall (buildFilters w.args) ::
          (if w.args.unattended then [] else [Event.prompt]))
        w.pages.flatten := by
      rw [main_run_eq w h1, hl]
      rfl
    obtain ⟨rest, hr, _⟩ := mainDeletePhase_events_shape w
      (Event.listCall (buildFilters w.args) ::
        (if w.args.unattended then [] else [Event.prompt])) w.pages.flatten
    refine ⟨?_, ?_, fun hne => absurd hin hne⟩
    · rw [hm, hr]
      simp [h4]
    · rw [hl]
      simp [hin]
  · have hl := list_exit0_of w h2 h3 h4 hin
    have hm : main_run w =
        { events := [.listCall (buildFilters w.args), .prompt],
          exitCode := 0, usagePrinted := false, loggedError := none } := by
      rw [main_run_eq w h1, hl]
      rfl
    refine ⟨by rw [hm]; simp, by rw [hl]; simp [hin], fun _ => hm⟩

/-- C2 witness: a declining input. -/
theorem claim_C2_confirmation_gate_witness :
    Event.prompt ∈ (main_run worldC2).events ∧
    main_run worldC2 =
      { events := [.listCall [{ name := "server.tag.key",
                                values := ["env"], condition := "EQ" },
                              { name := "server.tag.value",
                                values := ["dev"], condition := "EQ" }],
                   .prompt],
        exitCode := 0, usagePrinted := false, loggedError := none } := by
  have h := claim_C2_confirmation_gate worldC2 rfl rfl (by decide) rfl
  exact ⟨h.1, h.2.2 (by decide)⟩

/-- C9: when unattended, no prompt event ever occurs, whatever the world;
and when records were found the listing step hands them straight on. -/
theorem claim_C9_unattended_no_prompt (w : World)
    (h : w.args.unattended = true) :
    Event.prompt ∉ (main_run w).events ∧
    (w.noFlags = false → w.listTransportError = none → w.pages.flatten ≠ [] →
      (list_configurations w).2 = ListResult.found w.pages.flatten) := by
  constructor
  · cases hnf : w.noFlags with
    | true => simp [main_run, hnf]
    | false =>
      obtain ⟨rest, hr, hrest⟩ := main_run_events_shape w hnf
      rw [hr]
      intro hmem
      rcases List.mem_append.mp hmem with hm | hm
      · exact list_events_unattended w h hm
      · rcases hrest _ hm with hh | hh <;>
          simp [Event.isDeleteAgentsCall, Event.isDeleteConfigsCall] at hh
  · intro h1 h2 h3
    rw [list_found_of w h2 h3 (Or.inl h)]

/-- C9 witness: an unattended world with one record. -/
theorem claim_C9_unattended_no_prompt_witness :
    Event.prompt ∉ (main_run worldC9).events ∧
    (list_configurations worldC9).2 =
      ListResult.found [[("server.agentId", "a9"), ("server.configurationId", "c9")]] := by
  have h := claim_C9_unattended_no_prompt worldC9 rfl
  exact ⟨h.1, h.2 rfl rfl (by decide)⟩

/-- C1: a run in which the listing step returned N records issues the two
delete calls with exactly the N agent identifiers and the N configuration
identifiers extracted positionally from those same records, and contains
exactly one list call (no re-listing). -/
theorem claim_C1_positional_deletion (w : World) (as cs : List String)
    (h1 : w.noFlags = false) (h2 : w.listTransportError = none)
    (h3 : w.pages.flatten ≠ [])
    (hg : w.args.unattended = true ∨ strLower w.userInput = "cleanup")
    (ha : extractIds "server.agentId" w.pages.flatten = some as)
    (hc : extractIds "server.configurationId" w.pages.flatten = some cs)
    (hte : w.agentsTransportError = none) (hae : w.agentErrors = []) :
    (main_run w).events.filter Event.isListCall =
      [.listCall (buildFilters w.args)] ∧
    (main_run w).events.filter Event.isDeleteAgentsCall =
      [.deleteAgentsCall (as.map fun a => { agentId := a, force := w.args.force })] ∧
    (main_run w).events.filter Event.isDeleteConfigsCall =
      [.deleteConfigsCall cs] ∧
    as.length = w.pages.flatten.length ∧
    cs.length = w.pages.flatten.length ∧
    (∀ i : Nat, as[i]? =
      (w.pages.flatten[i]?.bind fun c => c.lookup "server.agentId")) ∧
    (∀ i : Nat, cs[i]? =
      (w.pages.flatten[i]?.bind fun c => c.lookup "server.configurationId")) := by
  have hl := list_found_of w h2 h3 hg
  have hm : main_run w = mainDeletePhase w
      (Event.listCall (buildFilters w.args) ::
        (if w.args.unattended then [] else [Event.prompt])) w.pages.flatten := by
    rw [main_run_eq w h1, hl]
    rfl
  have hd : delete_agents w.args.force w.agentsTransportError w.agentErrors as =
      ([Event.deleteAgentsCall
          (as.map fun a => { agentId := a, force := w.args.force })], .ok ()) := by
    rw [hte, hae]
    rfl
  have hev : (main_run w).events =
      (Event.listCall (buildFilters w.args) ::
        (if w.args.unattended then [] else [Event.prompt])) ++
      [Event.deleteAgentsCall (as.map fun a => { agentId := a, force := w.args.force })] ++
      [Event.deleteConfigsCall cs] := by
    rw [hm]
    cases hct : w.configsTransportError <;>
      simp [mainDeletePhase, ha, hc, hd, delete_configurations, hct]
  refine ⟨?_, ?_, ?_, extractIds_length _ _ _ ha, extractIds_length _ _ _ hc,
    fun i => extractIds_getElem _ _ _ ha i, fun i => extractIds_getElem _ _ _ hc i⟩
  all_goals
    rw [hev]
    cases hu : w.args.unattended <;>
      simp [hu, Event.isListCall, Event.isDeleteAgentsCall, Event.isDeleteConfigsCall]

/-- C1 witness: two records across two pages, unattended. -/
theorem claim_C1_positional_deletion_witness :
    (main_run worldC1).events.filter Event.isListCall =
      [Event.listCall [{ name := "server.application.name",
                         values := ["web01"], condition := "EQ" }]] ∧
    (main_run worldC1).events.filter Event.isDeleteAgentsCall =
      [Event.deleteAgentsCall [{ agentId := "a1", force := false },
                               { agentId := "a2", force := false }]] ∧
    (main_run worldC1).events.filter Event.isDeleteConfigsCall =
      [Event.deleteConfigsCall ["c1", "c2"]] := by
  have h := claim_C1_positional_deletion worldC1 ["a1", "a2"] ["c1", "c2"]
    rfl rfl (by decide) (Or.inl rfl) (by decide) (by decide) rfl rfl
  exact ⟨h.1, h.2.1, h.2.2.1⟩

/-- C3 counterexample: with one per-agent error the failure raised out of
`delete_agents` is the aggregate wrapped with the descriptive prefix, so
its single line is the prefixed one and not the bare formatted entry
claimed. -/
theorem claim_C3_agent_errors_counterexample :
    (delete_agents false none
        [{ agentId := "a1", errorMessage := "boom" }] ["a1"]).2 =
      Except.error "Error deleting agents: Agent a1: boom" ∧
    msgLines "Error deleting agents: Agent a1: boom" =
      ["Error deleting agents: Agent a1: boom"] ∧
    msgLines "Error deleting agents: Agent a1: boom" ≠
      [fmtAgentError { agentId := "a1", errorMessage := "boom" }] := by
  refine ⟨rfl, by decide, by decide⟩

/-- C3 (amended): if the batch-delete response carries k per-agent errors
(k at least 1), `delete_agents` raises one aggregate failure whose message
is the prefix Error deleting agents followed by the k formatted entries
joined by newlines — for newline-free entries it has exactly k lines, the
first carrying the prefix, line i being the formatted entry of the i-th
failing agent — and `delete_configurations` is never invoked: the run
exits 1 logging that failure. -/
theorem claim_C3_agent_errors_aggregate (w : World) (as cs : List String)
    (e0 : AgentError) (es : List AgentError)
    (h1 : w.noFlags = false) (h2 : w.listTransportError = none)
    (h3 : w.pages.flatten ≠ [])
    (hg : w.args.unattended = true ∨ strLower w.userInput = "cleanup")
    (ha : extractIds "server.agentId" w.pages.flatten = some as)
    (hc : extractIds "server.configurationId" w.pages.flatten = some cs)
    (hte : w.agentsTransportError = none)
    (hk : w.agentErrors = e0 :: es)
    (hnl : ∀ er ∈ w.agentErrors, nlChar ∉ (fmtAgentError er).data) :
    (delete_agents w.args.force w.agentsTransportError w.agentErrors as).2 =
      Except.error ("Error deleting agents: " ++ aggregateMessage w.agentErrors) ∧
    msgLines ("Error deleting agents: " ++ aggregateMessage w.agentErrors) =
      ("Error deleting agents: " ++ fmtAgentError e0) :: es.map fmtAgentError ∧
    (msgLines ("Error deleting agents: " ++ aggregateMessage w.agentErrors)).length =
      w.agentErrors.length ∧
    (main_run w).events.filter Event.isDeleteConfigsCall = [] ∧
    (main_run w).exitCode = 1 ∧
    (main_run w).loggedError =
      some ("An error occurred: " ++
        ("Error deleting agents: " ++ aggregateMessage w.agentErrors)) := by
  have hd : delete_agents w.args.force w.agentsTransportError w.agentErrors as =
      ([Event.deleteAgentsCall
          (as.map fun a => { agentId := a, force := w.args.force })],
       .error ("Error deleting agents: " ++ aggregateMessage w.agentErrors)) := by
    rw [hte, hk]
    simp [delete_agents]
  have hlines : msgLines ("Error deleting agents: " ++ aggregateMessage w.agentErrors) =
      ("Error deleting agents: " ++ fmtAgentError e0) :: es.map fmtAgentError := by
    rw [hk]
    refine msgLines_prefix_join _ _ _ (by decide)
      (hnl e0 (by rw [hk]; exact List.mem_cons_self _ _)) ?_
    intro s hs
    rcases List.mem_map.mp hs with ⟨er, her, rfl⟩
    exact hnl er (by rw [hk]; exact List.mem_cons_of_mem _ her)
  have hl := list_found_of w h2 h3 hg
  have hm : main_run w = mainDeletePhase w
      (Event.listCall (buildFilters w.args) ::
        (if w.args.unattended then [] else [Event.prompt])) w.pages.flatten := by
    rw [main_run_eq w h1, hl]
    rfl
  have hrun : main_run w =
      { events := (Event.listCall (buildFilters w.args) ::
            (if w.args.unattended then [] else [Event.prompt])) ++
          [Event.deleteAgentsCall
            (as.map fun a => { agentId := a, force := w.args.force })],
        exitCode := 1, usagePrinted := false,
        loggedError := some ("An error occurred: " ++
          ("Error deleting agents: " ++ aggregateMessage w.agentErrors)) } := by
    rw [hm]
    simp [mainDeletePhase, ha, hc, hd]
  refine ⟨by rw [hd], hlines, by rw [hlines]; simp [hk], ?_, by rw [hrun], by rw [hrun]⟩
  rw [hrun]
  cases hu : w.args.unattended <;> simp [hu, Event.isDeleteConfigsCall]

/-- C3 witness: one record, one per-agent error. -/
theorem claim_C3_agent_errors_aggregate_witness :
    (delete_agents worldC3.args.force worldC3.agentsTransportError
        worldC3.agentErrors ["a1"]).2 =
      Except.error "Error deleting agents: Agent a1: boom" ∧
    msgLines "Error deleting agents: Agent a1: boom" =
      ["Error deleting agents: Agent a1: boom"] ∧
    (main_run worldC3).events.filter Event.isDeleteConfigsCall = [] ∧
    (main_run worldC3).exitCode = 1 := by
  have h := claim_C3_agent_errors_aggregate worldC3 ["a1"] ["c1"]
    { agentId := "a1", errorMessage := "boom" } []
    rfl rfl (by decide) (Or.inl rfl) (by decide) (by decide) rfl rfl (by decide)
  exact ⟨h.1, h.2.1, h.2.2.2.1, h.2.2.2.2.1⟩

/-- C8: a transport error in any of the three remote operations is wrapped
with its descriptive prefix, caught once at top level, logged as An error
occurred, and turned into exit status 1, with no further remote call after
the failing one. -/
theorem claim_C8_error_propagation (w : World) (h1 : w.noFlags = false) :
    (∀ e, w.listTransportError = some e →
      main_run w =
        { events := [.listCall (buildFilters w.args)], exitCode := 1,
          usagePrinted := false,
          loggedError := some ("An error occurred: " ++
            ("Error listing configurations: " ++ e)) }) ∧
    (∀ e as cs, w.listTransportError = none → w.pages.flatten ≠ [] →
      (w.args.unattended = true ∨ strLower w.userInput = "cleanup") →
      extractIds "server.agentId" w.pages.flatten = some as →
      extractIds "server.configurationId" w.pages.flatten = some cs →
      w.agentsTransportError = some e →
      main_run w =
        { events := (Event.listCall (buildFilters w.args) ::
              (if w.args.unattended then [] else [Event.prompt])) ++
            [Event.deleteAgentsCall
              (as.map fun a => { agentId := a, force := w.args.force })],
          exitCode := 1, usagePrinted := false,
          loggedError := some ("An error occurred: " ++
            ("Error deleting agents: " ++ e)) }) ∧
    (∀ e as cs, w.listTransportError = none → w.pages.flatten ≠ [] →
      (w.args.unattended = true ∨ strLower w.userInput = "cleanup") →
      extractIds "server.agentId" w.pages.flatten = some as →
      extractIds "server.configurationId" w.pages.flatten = some cs →
      w.agentsTransportError = none → w.agentErrors = [] →
      w.configsTransportError = some e →
      main_run w =
        { events := (Event.listCall (buildFilters w.args) ::
              (if w.args.unattended then [] else [Event.prompt])) ++
            [Event.deleteAgentsCall
              (as.map fun a => { agentId := a, force := w.args.force })] ++
            [Event.deleteConfigsCall cs],
          exitCode := 1, usagePrinted := false,
          loggedError := some ("An error occurred: " ++
            ("Error deleting configurations: " ++ e)) }) := by
  refine ⟨?_, ?_, ?_⟩
  · intro e he
    rw [main_run_eq w h1, list_failed_of w e he]
    rfl
  · intro e as cs h2 h3 hg ha hc hte
    rw [main_run_eq w h1, list_found_of w h2 h3 hg]
    simp [runAfterList, mainDeletePhase, ha, hc, delete_agents, hte]
  · intro e as cs h2 h3 hg ha hc hte hae hce
    rw [main_run_eq w h1, list_found_of w h2 h3 hg]
    simp [runAfterList, mainDeletePhase, ha, hc, delete_agents, hte, hae,
          delete_configurations, hce]

/-- C8 witness: one world per failing operation. -/
theorem claim_C8_error_propagation_witness :
    main_run worldC8a =
      { events := [Event.listCall []], exitCode := 1, usagePrinted := false,
        loggedError := some "An error occurred: Error listing configurations: socket closed" } ∧
    main_run worldC8b =
      { events := [Event.listCall [],
                   Event.deleteAgentsCall [{ agentId := "a1", force := false }]],
        exitCode := 1, usagePrinted := false,
        loggedError := some "An error occurred: Error deleting agents: throttled" } ∧
    main_run worldC8c =
      { events := [Event.listCall [],
                   Event.deleteAgentsCall [{ agentId := "a1", force := false }],
                   Event.deleteConfigsCall ["c1"]],
        exitCode := 1, usagePrinted := false,
        loggedError := some "An error occurred: Error deleting configurations: denied" } := by
  have hA := (claim_C8_error_propagation worldC8a rfl).1 "socket closed" rfl
  have hB := (claim_C8_error_propagation worldC8b rfl).2.1 "throttled" ["a1"] ["c1"]
    rfl (by decide) (Or.inl rfl) (by decide) (by decide) rfl
  have hC := (claim_C8_error_propagation worldC8c rfl).2.2 "denied" ["a1"] ["c1"]
    rfl (by decide) (Or.inl rfl) (by decide) (by decide) rfl rfl rfl
  exact ⟨hA, hB, hC⟩

/-- C10: if any record handed on by the listing step lacks the agent or
the configuration identifier key, the extraction in `main` fails before
`delete_agents` is ever called: the run performs no deletion remote call,
the failure is logged at top level and the process exits 1. -/
theorem claim_C10_missing_key_aborts (w : World)
    (h1 : w.noFlags = false) (h2 : w.listTransportError = none)
    (h3 : w.pages.flatten ≠ [])
    (hg : w.args.unattended = true ∨ strLower w.userInput = "cleanup")
    (hbad : ∃ c ∈ w.pages.flatten,
      c.lookup "server.agentId" = none ∨
      c.lookup "server.configurationId" = none) :
    (main_run w).exitCode = 1 ∧
    (main_run w).events.filter Event.isDeleteAgentsCall = [] ∧
    (main_run w).events.filter Event.isDeleteConfigsCall = [] ∧
    ((main_run w).loggedError =
        some ("An error occurred: " ++ keyErrorMsg "server.agentId") ∨
      (main_run w).loggedError =
        some ("An error occurred: " ++ keyErrorMsg "server.configurationId")) := by
  have hl := list_found_of w h2 h3 hg
  have hm : main_run w = mainDeletePhase w
      (Event.listCall (buildFilters w.args) ::
        (if w.args.unattended then [] else [Event.prompt])) w.pages.flatten := by
    rw [main_run_eq w h1, hl]
    rfl
  cases hA : extractIds "server.agentId" w.pages.flatten with
  | none =>
    have hrun : main_run w =
        { events := Event.listCall (buildFilters w.args) ::
            (if w.args.unattended then [] else [Event.prompt]),
          exitCode := 1, usagePrinted := false,
          loggedError := some ("An error occurred: " ++ keyErrorMsg "server.agentId") } := by
      rw [hm]
      simp [mainDeletePhase, hA]
    refine ⟨by rw [hrun], ?_, ?_, Or.inl (by rw [hrun])⟩ <;>
      rw [hrun] <;> cases hu : w.args.unattended <;>
        simp [hu, Event.isDeleteAgentsCall, Event.isDeleteConfigsCall]
  | some as =>
    have hcfg : extractIds "server.configurationId" w.pages.flatten = none := by
      rcases hbad with ⟨c, hcmem, hnone | hnone⟩
      · exact absurd hnone (extractIds_mem _ _ _ hA c hcmem)
      · exact extractIds_eq_none _ _ ⟨c, hcmem, hnone⟩
    have hrun : main_run w =
        { events := Event.listCall (buildFilters w.args) ::
            (if w.args.unattended then [] else [Event.prompt]),
          exitCode := 1, usagePrinted := false,
          loggedError := some ("An error occurred: " ++
            keyErrorMsg "server.configurationId") } := by
      rw [hm]
      simp [mainDeletePhase, hA, hcfg]
    refine ⟨by rw [hrun], ?_, ?_, Or.inr (by rw [hrun])⟩ <;>
      rw [hrun] <;> cases hu : w.args.unattended <;>
        simp [hu, Event.isDeleteAgentsCall, Event.isDeleteConfigsCall]

/-- C10 witness: a record with only the configuration identifier key. -/
theorem claim_C10_missing_key_aborts_witness :
    (main_run worldC10).exitCode = 1 ∧
    (main_run worldC10).events.filter Event.isDeleteAgentsCall = [] ∧
    (main_run worldC10).events.filter Event.isDeleteConfigsCall = [] ∧
    ((main_run worldC10).loggedError =
        some ("An error occurred: " ++ keyErrorMsg "server.agentId") ∨
      (main_run worldC10).loggedError =
        some ("An error occurred: " ++ keyErrorMsg "server.configurationId")) :=
  claim_C10_missing_key_aborts worldC10 rfl rfl (by decide) (Or.inl rfl)
    ⟨[("server.configurationId", "c1")], by decide, Or.inl (by decide)⟩

end CleanupADS
